import Mathlib

/-!
Verification development for the Raster-Processor repository
(src/raster.py, src/pixc_to_raster.py).

The Python source is shallowly embedded: numpy floating-point scalars are
modelled by `ExtFloat` (a rational together with NaN and signed infinities),
numpy masked-array elements by a `masked` flag paired with the underlying
data value, 2-D masked grids by functions `Nat -> Nat -> Option ExtFloat`
(with `none` as the masked / fill state produced by `np.ma.masked_all`),
and Python's `round` (round-half-to-even on floats) by `pyRound` over the
rationals.  External collaborator modules (`SWOTWater.aggregate`,
`raster_products.get_raster_mapping`, `geoloc_raster`, `raster_crs`
transforms) are parameters of the embedded pipeline; the constants of
`raster_crs` used in zone/band adjustment are modelled from the spec and
documented as such where they occur.
-/

/-- Extended floating-point value: a finite rational, NaN, or a signed
infinity.  Models the values a numpy float64 scalar can take in the parts
of the program under study (no negative zero, which the source never
distinguishes). -/
inductive ExtFloat where
  | fin (q : ℚ)
  | inf
  | ninf
  | nan
deriving DecidableEq, Repr

namespace ExtFloat

/-- Model of `np.isnan` on one scalar. -/
def isnan : ExtFloat → Bool
  | nan => true
  | _ => false

/-- Model of `np.isinf` on one scalar (true for both signed infinities). -/
def isinf : ExtFloat → Bool
  | inf => true
  | ninf => true
  | _ => false

/-- True exactly for finite values. -/
def isFinite : ExtFloat → Bool
  | fin _ => true
  | _ => false

/-- True exactly for finite strictly positive values. -/
def isPosFinite : ExtFloat → Bool
  | fin q => decide (0 < q)
  | _ => false

/-- IEEE-style addition. -/
def add : ExtFloat → ExtFloat → ExtFloat
  | nan, _ => nan
  | _, nan => nan
  | fin a, fin b => fin (a + b)
  | inf, ninf => nan
  | ninf, inf => nan
  | inf, _ => inf
  | _, inf => inf
  | ninf, _ => ninf
  | _, ninf => ninf

/-- IEEE-style negation. -/
def neg : ExtFloat → ExtFloat
  | fin a => fin (-a)
  | inf => ninf
  | ninf => inf
  | nan => nan

/-- IEEE-style subtraction. -/
def sub (x y : ExtFloat) : ExtFloat := add x (neg y)

/-- IEEE-style multiplication (`inf * 0 = nan`). -/
def mul : ExtFloat → ExtFloat → ExtFloat
  | nan, _ => nan
  | _, nan => nan
  | fin a, fin b => fin (a * b)
  | fin a, inf => if 0 < a then inf else if a < 0 then ninf else nan
  | fin a, ninf => if 0 < a then ninf else if a < 0 then inf else nan
  | inf, fin b => if 0 < b then inf else if b < 0 then ninf else nan
  | ninf, fin b => if 0 < b then ninf else if b < 0 then inf else nan
  | inf, inf => inf
  | inf, ninf => ninf
  | ninf, inf => ninf
  | ninf, ninf => inf

/-- IEEE-style division (`0/0 = nan`, `x/0 = ±inf` for nonzero finite `x`,
`inf/inf = nan`; we do not track a negative zero, so `x / inf = 0`). -/
def div : ExtFloat → ExtFloat → ExtFloat
  | nan, _ => nan
  | _, nan => nan
  | fin a, fin b =>
      if b = 0 then (if a = 0 then nan else if 0 < a then inf else ninf)
      else fin (a / b)
  | fin _, inf => fin 0
  | fin _, ninf => fin 0
  | inf, fin b => if b < 0 then ninf else inf
  | ninf, fin b => if b < 0 then inf else ninf
  | inf, inf => nan
  | inf, ninf => nan
  | ninf, inf => nan
  | ninf, ninf => nan

/-- Model of `np.abs` on one scalar. -/
def abs : ExtFloat → ExtFloat
  | fin a => fin |a|
  | inf => inf
  | ninf => inf
  | nan => nan

/-- IEEE-style `<=` as a boolean: false whenever either side is NaN. -/
def ble : ExtFloat → ExtFloat → Bool
  | nan, _ => false
  | _, nan => false
  | fin a, fin b => decide (a ≤ b)
  | ninf, _ => true
  | _, inf => true
  | inf, _ => false
  | _, ninf => false

end ExtFloat

/-- Model of `np.sum` over a 1-D float array: a left fold of IEEE addition
starting from zero (NaN entries poison the sum, as in numpy). -/
def extSum (l : List ExtFloat) : ExtFloat := l.foldl ExtFloat.add (ExtFloat.fin 0)

/-- Model of `np.isin(x, values)` for one scalar against a list of finite
class codes: value equality, never true for NaN or infinities. -/
def isinExt (x : ExtFloat) (values : List ℚ) : Bool :=
  match x with
  | ExtFloat.fin q => values.contains q
  | _ => false

/-- Python's `round` (and `np.float64.__round__`) on an exact rational:
round half to even. -/
def pyRound (q : ℚ) : ℤ :=
  if Int.fract q < 1/2 then ⌊q⌋
  else if 1/2 < Int.fract q then ⌊q⌋ + 1
  else if ⌊q⌋ % 2 = 0 then ⌊q⌋ else ⌊q⌋ + 1

/-- Whether `d` is an exact integer multiple of `res` (the meaning of the
spec's `(x_max - x_min) % resolution == 0` over exact arithmetic). -/
def latticeAligned (d res : ℚ) : Bool := (d / res).den == 1

/-- Output of the grid-extent computation: the rounded and buffered extents
together with the derived grid sizes. -/
structure GridExtents where
  xmin : ℚ
  xmax : ℚ
  ymin : ℚ
  ymax : ℚ
  size_x : ℤ
  size_y : ℤ
deriving DecidableEq, Repr

/-- Lines 286-302 of `raster.py` (`RasterProcessor.create_projection_from_bbox`,
shared by the utm and geo branches): round each extent to the nearest
resolution-sized bin centered at the projection center, expand by the buffer,
and derive the grid sizes. -/
def round_limits (xm xM ym yM cx cy res buf : ℚ) : GridExtents :=
  let xmin := (pyRound ((xm - cx) / res) : ℚ) * res + cx - buf
  let xmax := (pyRound ((xM - cx) / res) : ℚ) * res + cx + buf
  let ymin := (pyRound ((ym - cy) / res) : ℚ) * res + cy - buf
  let ymax := (pyRound ((yM - cy) / res) : ℚ) * res + cy + buf
  { xmin := xmin, xmax := xmax, ymin := ymin, ymax := ymax,
    size_x := pyRound ((xmax - xmin) / res) + 1,
    size_y := pyRound ((ymax - ymin) / res) + 1 }

/-- The geo branch of `RasterProcessor.create_projection_from_bbox`
(lines 232-302): the bounding box of the four corner (lat, lon) pairs is
taken with `np.min`/`np.max`, the projection center is the origin, and the
shared rounding block produces the extents and sizes. -/
def create_projection_from_bbox_geo (ll lr ur ul : ℚ × ℚ) (res buf : ℚ) :
    GridExtents :=
  let xm := min (min ll.2 lr.2) (min ur.2 ul.2)
  let xM := max (max ll.2 lr.2) (max ur.2 ul.2)
  let ym := min (min ll.1 lr.1) (min ur.1 ul.1)
  let yM := max (max ll.1 lr.1) (max ur.1 ul.1)
  round_limits xm xM ym yM 0 0 res buf

/-- `RasterProcessor.__init__` for `projection_type == 'geo'`: the geodetic
resolution is given in arc-seconds and converted to degrees. -/
def geoResolution (resolution : ℚ) : ℚ := resolution / (60 * 60)

/-- `lon_360to180` of `raster.py`: `np.mod(longitude + 180, 360) - 180`
(float `np.mod` takes the sign of the divisor). -/
def lon_360to180 (longitude : ℚ) : ℚ :=
  ((longitude + 180) - 360 * ⌊(longitude + 180) / 360⌋) - 180

/-- The grid-extent invariant of claim C1 as it actually holds on the code:
the pre-buffer extents are lattice-aligned, the sizes obey the rounding
formula, and (for this hypothesis set) are at least 1. -/
def gridExtentsInvariant (xm xM ym yM cx cy res buf : ℚ) : Prop :=
  latticeAligned ((round_limits xm xM ym yM cx cy res buf).xmax -
    (round_limits xm xM ym yM cx cy res buf).xmin - 2 * buf) res = true ∧
  latticeAligned ((round_limits xm xM ym yM cx cy res buf).ymax -
    (round_limits xm xM ym yM cx cy res buf).ymin - 2 * buf) res = true ∧
  (round_limits xm xM ym yM cx cy res buf).size_x =
    pyRound (((round_limits xm xM ym yM cx cy res buf).xmax -
      (round_limits xm xM ym yM cx cy res buf).xmin) / res) + 1 ∧
  (round_limits xm xM ym yM cx cy res buf).size_y =
    pyRound (((round_limits xm xM ym yM cx cy res buf).ymax -
      (round_limits xm xM ym yM cx cy res buf).ymin) / res) + 1 ∧
  1 ≤ (round_limits xm xM ym yM cx cy res buf).size_x ∧
  1 ≤ (round_limits xm xM ym yM cx cy res buf).size_y

/-- One element of a numpy masked array: the mask flag together with the
underlying data value (numpy keeps the data of masked elements, and the
source indexes with comparisons that read that data). -/
structure MVal where
  masked : Bool
  data : ExtFloat
deriving DecidableEq, Repr

/-- The per-point fields of the pixel cloud consulted by `get_pixc_mask`
and by the class-recognition filter of `RasterProcessor.rasterize`
(`latitude`, `longitude`, `height`, `pixel_area`, `classification`),
plus `water_frac` which dark-fraction aggregation reads. -/
structure PixcPoint where
  lat : MVal
  lon : MVal
  height : MVal
  area : MVal
  klass : MVal
  water_frac : MVal
deriving DecidableEq, Repr

/-- `get_pixc_mask` of `raster.py`, per point: start from 1, zero the entry
when latitude/longitude/height/pixel-area is masked, when
latitude/longitude/classification is NaN, or when the latitude is outside
(-80, 84); return `mask == 1`.  The updates are kept in source order. -/
def get_pixc_mask_point (p : PixcPoint) : Bool :=
  let m0 := true
  let m1 := if p.lat.masked then false else m0
  let m2 := if p.lon.masked then false else m1
  let m3 := if p.height.masked then false else m2
  let m4 := if p.area.masked then false else m3
  let m5 := if p.lat.data.isnan then false else m4
  let m6 := if p.lon.data.isnan then false else m5
  let m7 := if p.klass.data.isnan then false else m6
  let m8 := if ExtFloat.ble (ExtFloat.fin 84) p.lat.data then false else m7
  if ExtFloat.ble p.lat.data (ExtFloat.fin (-80)) then false else m8

/-- `get_pixc_mask` over the whole point list. -/
def get_pixc_mask (pts : List PixcPoint) : List Bool :=
  pts.map get_pixc_mask_point

/-- The four operator-configured class-code sets of `RasterProcessor`. -/
structure ClassConfig where
  interior_water_classes : List ℚ
  water_edge_classes : List ℚ
  land_edge_classes : List ℚ
  dark_water_classes : List ℚ
deriving DecidableEq, Repr

/-- `np.concatenate` of the four configured class sets, as used on lines
188-194 of `raster.py`. -/
def recognizedClasses (cfg : ClassConfig) : List ℚ :=
  cfg.interior_water_classes ++ cfg.water_edge_classes ++
    cfg.land_edge_classes ++ cfg.dark_water_classes

/-- Lines 185-194 of `RasterProcessor.rasterize`: the mask handed to the
bin mapper is `get_pixc_mask` conjoined with membership of the
classification in the union of the configured class sets. -/
def bin_mapping_mask_point (cfg : ClassConfig) (p : PixcPoint) : Bool :=
  get_pixc_mask_point p && isinExt p.klass.data (recognizedClasses cfg)

/-- The bin-mapping mask over the whole point list. -/
def bin_mapping_mask (cfg : ClassConfig) (pts : List PixcPoint) : List Bool :=
  pts.map (bin_mapping_mask_point cfg)

/-- Look up the bin list of cell (i, j) in the projection mapping
(`self.proj_mapping[i][j]`). -/
def cellAt (mapping : List (List (List ℕ))) (i j : ℕ) : Option (List ℕ) :=
  (mapping.get? i).bind (fun row => row.get? j)

/-- The per-cell aggregation loop shared by the channels of `raster.py`:
the output grid starts as `np.ma.masked_all` and cell (i, j) is assigned
the aggregator's output exactly when `len(self.proj_mapping[i][j]) != 0`.
The external aggregation routine is the parameter `agg`. -/
def cellGrid (mapping : List (List (List ℕ))) (agg : List ℕ → ExtFloat) :
    ℕ → ℕ → Option ExtFloat :=
  fun i j =>
    match cellAt mapping i j with
    | some cell => if cell.length ≠ 0 then some (agg cell) else none
    | none => none

/-- Lines 381-406 of `RasterProcessor.aggregate_wse`, restricted to the
`wse_u` channel: per populated cell the uncertainty output of the external
`ag.height_with_uncerts` call (parameter `aggWseU`) is stored unchanged. -/
def wse_u_grid (mapping : List (List (List ℕ))) (aggWseU : List ℕ → ExtFloat) :
    ℕ → ℕ → Option ExtFloat :=
  cellGrid mapping aggWseU

/-- Lines 426-462 of `RasterProcessor.aggregate_water_area`, restricted to
the `water_frac_u` channel: per populated cell the area-uncertainty output
of the external `ag.area_with_uncert` call (parameter `aggAreaU`) is divided
by the cell's nominal pixel area (`resolution**2` for utm, a
latitude-dependent value for geo, hence a function of the row index). -/
def water_frac_u_grid (mapping : List (List (List ℕ)))
    (aggAreaU : List ℕ → ExtFloat) (pixelArea : ℕ → ℚ) :
    ℕ → ℕ → Option ExtFloat :=
  fun i j =>
    match cellAt mapping i j with
    | some cell =>
        if cell.length ≠ 0
        then some (ExtFloat.div (aggAreaU cell) (ExtFloat.fin (pixelArea i)))
        else none
    | none => none

/-- Line 718 of `RasterProcessor.build_product`:
`product['wse_uncert'] = self.wse_u` (a plain copy). -/
def product_wse_uncert (mapping : List (List (List ℕ)))
    (aggWseU : List ℕ → ExtFloat) : ℕ → ℕ → Option ExtFloat :=
  wse_u_grid mapping aggWseU

/-- Line 722 of `RasterProcessor.build_product`:
`product['water_frac_uncert'] = self.water_frac_u` (a plain copy). -/
def product_water_frac_uncert (mapping : List (List (List ℕ)))
    (aggAreaU : List ℕ → ExtFloat) (pixelArea : ℕ → ℚ) :
    ℕ → ℕ → Option ExtFloat :=
  water_frac_u_grid mapping aggAreaU pixelArea

/-- Boolean-mask fancy indexing `xs[sel]` on parallel numpy arrays: keep the
elements whose selector entry is true. -/
def maskSelect {α : Type} (sel : List Bool) (xs : List α) : List α :=
  (sel.zip xs).filterMap (fun sx => if sx.1 then some sx.2 else none)

/-- `RasterProcessor.calc_dark_frac` (lines 525-534): the dark-classified
selector is `np.isin(klass, self.dark_water_classes)`, the dark area is
`sum(pixel_area[dark] * water_frac[dark])`, the total area is
`sum(pixel_area * water_frac)`, and a zero total yields exactly 0. -/
def calc_dark_frac (dark_water_classes : List ℚ)
    (pixel_area klass water_frac : List ExtFloat) : ExtFloat :=
  let klass_dark := klass.map (fun k => isinExt k dark_water_classes)
  let dark_area := extSum (List.zipWith ExtFloat.mul
    (maskSelect klass_dark pixel_area) (maskSelect klass_dark water_frac))
  let total_area := extSum (List.zipWith ExtFloat.mul pixel_area water_frac)
  if total_area = ExtFloat.fin 0 then ExtFloat.fin 0
  else ExtFloat.div dark_area total_area

/-- The dark-water numerator exactly as the spec words it: the sum of
`pixel_area * water_frac` over the dark-classified points, formed directly
over the zipped triples. -/
def specDarkAreaSum (dark_water_classes : List ℚ)
    (pixel_area klass water_frac : List ExtFloat) : ExtFloat :=
  extSum ((pixel_area.zip (klass.zip water_frac)).filterMap
    (fun t => if isinExt t.2.1 dark_water_classes
              then some (ExtFloat.mul t.1 t.2.2) else none))

/-- The dark-water denominator as the spec words it: the sum of
`pixel_area * water_frac` over all points of the cell. -/
def specTotalAreaSum (pixel_area water_frac : List ExtFloat) : ExtFloat :=
  extSum (List.zipWith ExtFloat.mul pixel_area water_frac)

/-- `RasterProcessor.aggregate_dark_frac` (lines 509-523): per populated
cell, `calc_dark_frac` is applied to the cell's per-point pixel areas,
classifications and water fractions restricted to the good points
(`arr[self.proj_mapping[i][j]][good]`). -/
def dark_frac_grid (dark_water_classes : List ℚ)
    (mapping : List (List (List ℕ))) (good : ℕ → Bool)
    (pixel_area klass water_frac : ℕ → ExtFloat) :
    ℕ → ℕ → Option ExtFloat :=
  fun i j =>
    match cellAt mapping i j with
    | some cell =>
        if cell.length ≠ 0 then
          let idx := cell.filter good
          some (calc_dark_frac dark_water_classes
            (idx.map pixel_area) (idx.map klass) (idx.map water_frac))
        else none
    | none => none

/-- Lines 330-336 of `RasterProcessor.aggregate_wse`: the per-point height
standard deviation starts as `np.abs(phase_noise_std * dheight_dphase)` and
entries that are `<= 0`, infinite or NaN are replaced (in that order) by the
deweighting constant `1.0e5`. -/
def clampBadHeightStd (x : ExtFloat) : ExtFloat :=
  let x1 := if ExtFloat.ble x (ExtFloat.fin 0) then ExtFloat.fin 100000 else x
  let x2 := if x1.isinf then ExtFloat.fin 100000 else x1
  if x2.isnan then ExtFloat.fin 100000 else x2

/-- The per-point height standard deviation actually passed to
`ag.height_with_uncerts`. -/
def pixc_height_std (phase_noise_std dheight_dphase : ExtFloat) : ExtFloat :=
  clampBadHeightStd (ExtFloat.abs (ExtFloat.mul phase_noise_std dheight_dphase))

/-- The whole `pixc_height_std` array (elementwise over the two input
arrays, as the numpy expression is). -/
def pixc_height_std_arr (phase_noise_std dheight_dphase : List ExtFloat) :
    List ExtFloat :=
  List.zipWith pixc_height_std phase_noise_std dheight_dphase

/-- Addition of two masked-grid cells: masked whenever either operand is
masked, as numpy masked arithmetic behaves. -/
def ma_add : Option ExtFloat → Option ExtFloat → Option ExtFloat
  | some a, some b => some (ExtFloat.add a b)
  | _, _ => none

/-- Subtraction of two masked-grid cells. -/
def ma_sub : Option ExtFloat → Option ExtFloat → Option ExtFloat
  | some a, some b => some (ExtFloat.sub a b)
  | _, _ => none

/-- `RasterProcessor.apply_wse_corrections` (lines 609-614):
`self.wse -= (self.geoid + self.solid_earth_tide + self.load_tide_sol1 +
self.pole_tide)`, elementwise over the whole grid. -/
def apply_wse_corrections
    (wse geoid solid_earth_tide load_tide_sol1 pole_tide :
      ℕ → ℕ → Option ExtFloat) : ℕ → ℕ → Option ExtFloat :=
  fun i j =>
    ma_sub (wse i j)
      (ma_add (ma_add (ma_add (geoid i j) (solid_earth_tide i j))
        (load_tide_sol1 i j)) (pole_tide i j))

/-- Modelled from the spec: `raster_crs.UTM_NUM_ZONES`.  The `raster_crs`
module is not under src/; the spec fixes the zone count through its
round-trip example (zone 60 + 1 wraps to zone 1), the standard 60 UTM
zones. -/
def UTM_NUM_ZONES : ℤ := 60

/-- Modelled from the spec: `raster_crs.UTM_VALID_BANDS`.  The `raster_crs`
module is not under src/; the valid MGRS latitude bands are C..X without I
and O, ordered south to north, so index 0 is the lowest valid band. -/
def UTM_VALID_BANDS : List Char :=
  ['C', 'D', 'E', 'F', 'G', 'H', 'J', 'K', 'L', 'M',
   'N', 'P', 'Q', 'R', 'S', 'T', 'U', 'V', 'W', 'X']

/-- Lines 265-267 of `RasterProcessor.create_projection_from_bbox`:
`utm_zone = np.mod(utm_zone + self.utm_zone_adjust - 1, UTM_NUM_ZONES) + 1`
(integer `np.mod` returns a representative with the divisor's sign). -/
def adjust_utm_zone (utm_zone utm_zone_adjust : ℤ) : ℤ :=
  (utm_zone + utm_zone_adjust - 1) % UTM_NUM_ZONES + 1

/-- Lines 269-277 of `RasterProcessor.create_projection_from_bbox`: the
adjusted band index `UTM_VALID_BANDS.find(mgrs_band) + latitude_band_adjust`
is clamped to `[0, len(UTM_VALID_BANDS) - 1]`. -/
def adjust_band_num (band_num_init latitude_band_adjust : ℤ) : ℤ :=
  let band_num := band_num_init + latitude_band_adjust
  if band_num < 0 then 0
  else if band_num ≥ (UTM_VALID_BANDS.length : ℤ)
       then (UTM_VALID_BANDS.length : ℤ) - 1
  else band_num

/-- The configuration slice of `RasterProcessor` that the embedded geo
pipeline consults (`self.resolution` already converted to degrees,
`self.buffer_size`, and the four class sets). -/
structure RasterConfig where
  resolution : ℚ
  buffer_size : ℚ
  classes : ClassConfig

/-- The external per-cell aggregation routines of `SWOTWater.aggregate`
(`ag.height_with_uncerts`, `ag.area_with_uncert`, `ag.simple`,
`ag.height_uncert_std`), one black-box function per output channel, each
taking the cell's bin list. -/
structure CellAggs where
  wse : List ℕ → ExtFloat
  wse_u : List ℕ → ExtFloat
  n_wse_pix : List ℕ → ExtFloat
  water_area : List ℕ → ExtFloat
  water_area_u : List ℕ → ExtFloat
  n_area_pix : List ℕ → ExtFloat
  cross_track : List ℕ → ExtFloat
  sig0 : List ℕ → ExtFloat
  sig0_u : List ℕ → ExtFloat
  inc : List ℕ → ExtFloat
  illumination_time : List ℕ → ExtFloat
  illumination_time_tai : List ℕ → ExtFloat
  geoid : List ℕ → ExtFloat
  solid_earth_tide : List ℕ → ExtFloat
  load_tide_sol1 : List ℕ → ExtFloat
  load_tide_sol2 : List ℕ → ExtFloat
  pole_tide : List ℕ → ExtFloat
  model_dry_tropo_cor : List ℕ → ExtFloat
  model_wet_tropo_cor : List ℕ → ExtFloat
  iono_cor_gim_ka : List ℕ → ExtFloat

/-- The scene-level inputs `RasterProcessor.rasterize` reads from the pixel
cloud: the geospatial bounding coordinates and the per-point arrays. -/
structure PixcScene where
  geospatial_lat_min : ℚ
  geospatial_lat_max : ℚ
  geospatial_lon_min : ℚ
  geospatial_lon_max : ℚ
  points : List PixcPoint

/-- Lines 179-182 of `RasterProcessor.rasterize`: the four scene corners
(lower-left, lower-right, upper-right, upper-left) as (lat, lon) pairs with
the longitudes normalized by `lon_360to180`. -/
def sceneCorners (s : PixcScene) : (ℚ × ℚ) × (ℚ × ℚ) × (ℚ × ℚ) × (ℚ × ℚ) :=
  ((s.geospatial_lat_min, lon_360to180 s.geospatial_lon_min),
   (s.geospatial_lat_min, lon_360to180 s.geospatial_lon_max),
   (s.geospatial_lat_max, lon_360to180 s.geospatial_lon_max),
   (s.geospatial_lat_max, lon_360to180 s.geospatial_lon_min))

/-- The output raster product: grid sizes, whether `build_product` was
called with `populate_values=True`, and one masked grid per channel. -/
structure RasterProduct where
  size_x : ℤ
  size_y : ℤ
  populated : Bool
  wse : ℕ → ℕ → Option ExtFloat
  wse_uncert : ℕ → ℕ → Option ExtFloat
  water_area : ℕ → ℕ → Option ExtFloat
  water_area_uncert : ℕ → ℕ → Option ExtFloat
  water_frac : ℕ → ℕ → Option ExtFloat
  water_frac_uncert : ℕ → ℕ → Option ExtFloat
  cross_track : ℕ → ℕ → Option ExtFloat
  sig0 : ℕ → ℕ → Option ExtFloat
  sig0_uncert : ℕ → ℕ → Option ExtFloat
  inc : ℕ → ℕ → Option ExtFloat
  n_wse_pix : ℕ → ℕ → Option ExtFloat
  n_area_pix : ℕ → ℕ → Option ExtFloat
  dark_frac : ℕ → ℕ → Option ExtFloat
  illumination_time : ℕ → ℕ → Option ExtFloat
  illumination_time_tai : ℕ → ℕ → Option ExtFloat
  geoid : ℕ → ℕ → Option ExtFloat
  solid_earth_tide : ℕ → ℕ → Option ExtFloat
  load_tide_sol1 : ℕ → ℕ → Option ExtFloat
  load_tide_sol2 : ℕ → ℕ → Option ExtFloat
  pole_tide : ℕ → ℕ → Option ExtFloat
  model_dry_tropo_cor : ℕ → ℕ → Option ExtFloat
  model_wet_tropo_cor : ℕ → ℕ → Option ExtFloat
  iono_cor_gim_ka : ℕ → ℕ → Option ExtFloat

/-- Modelled from the spec for the `raster_products` collaborator (not
under src/): `build_product(populate_values=False)` leaves every channel of
the product container at its fill value; `np.ma.masked_all` fill is `none`
here. -/
def emptyRasterProduct (e : GridExtents) : RasterProduct where
  size_x := e.size_x
  size_y := e.size_y
  populated := false
  wse := fun _ _ => none
  wse_uncert := fun _ _ => none
  water_area := fun _ _ => none
  water_area_uncert := fun _ _ => none
  water_frac := fun _ _ => none
  water_frac_uncert := fun _ _ => none
  cross_track := fun _ _ => none
  sig0 := fun _ _ => none
  sig0_uncert := fun _ _ => none
  inc := fun _ _ => none
  n_wse_pix := fun _ _ => none
  n_area_pix := fun _ _ => none
  dark_frac := fun _ _ => none
  illumination_time := fun _ _ => none
  illumination_time_tai := fun _ _ => none
  geoid := fun _ _ => none
  solid_earth_tide := fun _ _ => none
  load_tide_sol1 := fun _ _ => none
  load_tide_sol2 := fun _ _ => none
  pole_tide := fun _ _ => none
  model_dry_tropo_cor := fun _ _ => none
  model_wet_tropo_cor := fun _ _ => none
  iono_cor_gim_ka := fun _ _ => none

/-- The proposition that every channel of a raster product is entirely
fill-valued. -/
def allChannelsFill (r : RasterProduct) : Prop :=
  r.wse = (fun _ _ => none) ∧
  r.wse_uncert = (fun _ _ => none) ∧
  r.water_area = (fun _ _ => none) ∧
  r.water_area_uncert = (fun _ _ => none) ∧
  r.water_frac = (fun _ _ => none) ∧
  r.water_frac_uncert = (fun _ _ => none) ∧
  r.cross_track = (fun _ _ => none) ∧
  r.sig0 = (fun _ _ => none) ∧
  r.sig0_uncert = (fun _ _ => none) ∧
  r.inc = (fun _ _ => none) ∧
  r.n_wse_pix = (fun _ _ => none) ∧
  r.n_area_pix = (fun _ _ => none) ∧
  r.dark_frac = (fun _ _ => none) ∧
  r.illumination_time = (fun _ _ => none) ∧
  r.illumination_time_tai = (fun _ _ => none) ∧
  r.geoid = (fun _ _ => none) ∧
  r.solid_earth_tide = (fun _ _ => none) ∧
  r.load_tide_sol1 = (fun _ _ => none) ∧
  r.load_tide_sol2 = (fun _ _ => none) ∧
  r.pole_tide = (fun _ _ => none) ∧
  r.model_dry_tropo_cor = (fun _ _ => none) ∧
  r.model_wet_tropo_cor = (fun _ _ => none) ∧
  r.iono_cor_gim_ka = (fun _ _ => none)

/-- Index into the per-point array drawn from the point list (out-of-range
reads never occur on the source's in-range bin indices). -/
def arrOf (pts : List PixcPoint) (f : PixcPoint → ExtFloat) : ℕ → ExtFloat :=
  fun n =>
    match pts.get? n with
    | some p => f p
    | none => ExtFloat.nan

/-- `RasterProcessor.rasterize` for the geo projection (lines 156-230):
compute the projection from the scene corners, build the bin-mapping mask,
build an empty product, return it immediately when the pixel cloud is
empty, and otherwise run the per-cell aggregation passes and assemble the
populated product.  `get_raster_mapping` (external, `raster_products`) is
the parameter `mappingFn`; the external aggregation routines are `aggs`;
`raster_crs.wgs84_px_area` for the geo nominal cell area is `pxArea`. -/
def rasterizeGeo (cfg : RasterConfig) (aggs : CellAggs)
    (mappingFn : GridExtents → List PixcPoint → List Bool → List (List (List ℕ)))
    (pxArea : ℕ → ℚ) (s : PixcScene) : RasterProduct :=
  let c := sceneCorners s
  let e := create_projection_from_bbox_geo c.1 c.2.1 c.2.2.1 c.2.2.2
    cfg.resolution cfg.buffer_size
  let mask := bin_mapping_mask cfg.classes s.points
  let empty := emptyRasterProduct e
  if s.points.length = 0 then empty
  else
    let mapping := mappingFn e s.points mask
    let good : ℕ → Bool := fun n => mask.getD n false
    { size_x := e.size_x
      size_y := e.size_y
      populated := true
      wse := apply_wse_corrections (cellGrid mapping aggs.wse)
        (cellGrid mapping aggs.geoid) (cellGrid mapping aggs.solid_earth_tide)
        (cellGrid mapping aggs.load_tide_sol1) (cellGrid mapping aggs.pole_tide)
      wse_uncert := wse_u_grid mapping aggs.wse_u
      water_area := cellGrid mapping aggs.water_area
      water_area_uncert := cellGrid mapping aggs.water_area_u
      water_frac := water_frac_u_grid mapping aggs.water_area pxArea
      water_frac_uncert := water_frac_u_grid mapping aggs.water_area_u pxArea
      cross_track := cellGrid mapping aggs.cross_track
      sig0 := cellGrid mapping aggs.sig0
      sig0_uncert := cellGrid mapping aggs.sig0_u
      inc := cellGrid mapping aggs.inc
      n_wse_pix := cellGrid mapping aggs.n_wse_pix
      n_area_pix := cellGrid mapping aggs.n_area_pix
      dark_frac := dark_frac_grid cfg.classes.dark_water_classes mapping good
        (arrOf s.points (fun p => p.area.data))
        (arrOf s.points (fun p => p.klass.data))
        (arrOf s.points (fun p => p.water_frac.data))
      illumination_time := cellGrid mapping aggs.illumination_time
      illumination_time_tai := cellGrid mapping aggs.illumination_time_tai
      geoid := cellGrid mapping aggs.geoid
      solid_earth_tide := cellGrid mapping aggs.solid_earth_tide
      load_tide_sol1 := cellGrid mapping aggs.load_tide_sol1
      load_tide_sol2 := cellGrid mapping aggs.load_tide_sol2
      pole_tide := cellGrid mapping aggs.pole_tide
      model_dry_tropo_cor := cellGrid mapping aggs.model_dry_tropo_cor
      model_wet_tropo_cor := cellGrid mapping aggs.model_wet_tropo_cor
      iono_cor_gim_ka := cellGrid mapping aggs.iono_cor_gim_ka }

/-- The pixel-cloud container as `L2PixcToRaster` sees it: the named
per-point numeric arrays of the `pixel_cloud` group that `raster.py`
reads.  `MutableProduct.copy` (external, SWOTWater) is modelled from the
spec as producing an independent duplicate of the container. -/
structure PixelCloud where
  latitude : List ExtFloat
  longitude : List ExtFloat
  height : List ExtFloat
  classification : List ExtFloat
  pixel_area : List ExtFloat
  water_frac : List ExtFloat
  water_frac_uncert : List ExtFloat
  darea_dheight : List ExtFloat
  false_detection_rate : List ExtFloat
  missed_detection_rate : List ExtFloat
  eff_num_rare_looks : List ExtFloat
  eff_num_medium_looks : List ExtFloat
  power_plus_y : List ExtFloat
  power_minus_y : List ExtFloat
  dheight_dphase : List ExtFloat
  dlatitude_dphase : List ExtFloat
  dlongitude_dphase : List ExtFloat
  phase_noise_std : List ExtFloat
  interferogram : List ExtFloat
  cross_track : List ExtFloat
  sig0 : List ExtFloat
  inc : List ExtFloat
  illumination_time : List ExtFloat
  illumination_time_tai : List ExtFloat
  geoid : List ExtFloat
  solid_earth_tide : List ExtFloat
  load_tide_sol1 : List ExtFloat
  load_tide_sol2 : List ExtFloat
  pole_tide : List ExtFloat
  model_dry_tropo_cor : List ExtFloat
  model_wet_tropo_cor : List ExtFloat
  iono_cor_gim_ka : List ExtFloat
deriving DecidableEq

/-- The mutable state of `L2PixcToRaster` touched by
`do_improved_geolocation`: the input pixel cloud and the (initially absent)
improved-geolocation pixel cloud. -/
structure L2State where
  pixc : PixelCloud
  improved_geoloc_pixc : Option PixelCloud
deriving DecidableEq

/-- `L2PixcToRaster.do_improved_geolocation` (lines 55-84): rasterize at
the smoothed resolution; if the coarse raster is empty, return without
touching anything (modelled by the `rasterIsEmpty` flag, computed by the
external `is_empty`); otherwise call the external `geoloc_raster` solver
(parameter `geolocRaster`) for refined latitude/longitude/height, copy the
input pixel cloud, and overwrite exactly those three fields of the copy. -/
def do_improved_geolocation
    (geolocRaster : PixelCloud → List ExtFloat × List ExtFloat × List ExtFloat)
    (rasterIsEmpty : Bool) (st : L2State) : L2State :=
  if rasterIsEmpty then st
  else
    let r := geolocRaster st.pixc
    let refined := { st.pixc with
      latitude := r.1
      longitude := r.2.1
      height := r.2.2 }
    { st with improved_geoloc_pixc := some refined }

/-- A concrete valid pixel-cloud point (unmasked, in-range latitude,
classification code 1) used by the concrete counterexamples and
witnesses. -/
def samplePoint : PixcPoint where
  lat := { masked := false, data := ExtFloat.fin 0 }
  lon := { masked := false, data := ExtFloat.fin 0 }
  height := { masked := false, data := ExtFloat.fin 10 }
  area := { masked := false, data := ExtFloat.fin 1 }
  klass := { masked := false, data := ExtFloat.fin 1 }
  water_frac := { masked := false, data := ExtFloat.fin 1 }

/-- A concrete set of external aggregation routines (each returning the
finite 0 on every cell), used by concrete instantiations. -/
def sampleAggs : CellAggs where
  wse := fun _ => ExtFloat.fin 0
  wse_u := fun _ => ExtFloat.fin 0
  n_wse_pix := fun _ => ExtFloat.fin 0
  water_area := fun _ => ExtFloat.fin 0
  water_area_u := fun _ => ExtFloat.fin 0
  n_area_pix := fun _ => ExtFloat.fin 0
  cross_track := fun _ => ExtFloat.fin 0
  sig0 := fun _ => ExtFloat.fin 0
  sig0_u := fun _ => ExtFloat.fin 0
  inc := fun _ => ExtFloat.fin 0
  illumination_time := fun _ => ExtFloat.fin 0
  illumination_time_tai := fun _ => ExtFloat.fin 0
  geoid := fun _ => ExtFloat.fin 0
  solid_earth_tide := fun _ => ExtFloat.fin 0
  load_tide_sol1 := fun _ => ExtFloat.fin 0
  load_tide_sol2 := fun _ => ExtFloat.fin 0
  pole_tide := fun _ => ExtFloat.fin 0
  model_dry_tropo_cor := fun _ => ExtFloat.fin 0
  model_wet_tropo_cor := fun _ => ExtFloat.fin 0
  iono_cor_gim_ka := fun _ => ExtFloat.fin 0

/-- A concrete scene with an empty point collection over a 2 x 3 degree
bounding box. -/
def sampleEmptyScene : PixcScene where
  geospatial_lat_min := 0
  geospatial_lat_max := 2
  geospatial_lon_min := 0
  geospatial_lon_max := 3
  points := []

/-- A concrete raster configuration (geo, 1-degree resolution, no
buffer). -/
def sampleConfig : RasterConfig where
  resolution := 1
  buffer_size := 0
  classes := { interior_water_classes := [1], water_edge_classes := [2],
               land_edge_classes := [3], dark_water_classes := [5] }

/-! Helper lemmas about the rounding primitive. -/

theorem pyRound_eq_floor_or (q : ℚ) : pyRound q = ⌊q⌋ ∨ pyRound q = ⌊q⌋ + 1 := by
  unfold pyRound
  split_ifs <;> simp

theorem floor_le_pyRound (q : ℚ) : ⌊q⌋ ≤ pyRound q := by
  rcases pyRound_eq_floor_or q with h | h <;> omega

theorem pyRound_le_floor_add_one (q : ℚ) : pyRound q ≤ ⌊q⌋ + 1 := by
  rcases pyRound_eq_floor_or q with h | h <;> omega

theorem pyRound_nonneg {q : ℚ} (h : 0 ≤ q) : 0 ≤ pyRound q :=
  le_trans (Int.floor_nonneg.mpr h) (floor_le_pyRound q)

theorem pyRound_mono {a b : ℚ} (hab : a ≤ b) : pyRound a ≤ pyRound b := by
  have hf : ⌊a⌋ ≤ ⌊b⌋ := Int.floor_le_floor hab
  rcases lt_or_eq_of_le hf with hlt | heq
  · calc pyRound a ≤ ⌊a⌋ + 1 := pyRound_le_floor_add_one a
      _ ≤ ⌊b⌋ := by omega
      _ ≤ pyRound b := floor_le_pyRound b
  · have hfr : Int.fract a ≤ Int.fract b := by
      rw [Int.fract, Int.fract, ← heq]
      linarith
    rw [pyRound, pyRound, ← heq]
    split_ifs <;> first | omega | linarith

theorem latticeAligned_int_mul (k : ℤ) {res : ℚ} (hres : res ≠ 0) :
    latticeAligned ((k : ℚ) * res) res = true := by
  unfold latticeAligned
  rw [mul_div_cancel_right₀ _ hres]
  simp [Rat.den_intCast]

theorem latticeAligned_iff {d res : ℚ} (hres : res ≠ 0) :
    latticeAligned d res = true ↔ ∃ k : ℤ, d = (k : ℚ) * res := by
  unfold latticeAligned
  rw [beq_iff_eq]
  constructor
  · intro h
    refine ⟨(d / res).num, ?_⟩
    have h2 : ((d / res).num : ℚ) = d / res := by
      exact_mod_cast (Rat.den_eq_one_iff _).mp h
    rw [h2]
    field_simp
  · rintro ⟨k, rfl⟩
    rw [mul_div_cancel_right₀ _ hres]
    simp [Rat.den_intCast]

/-- Claim C1, counterexample: in the geo projection with resolution 3600
arc-seconds (= 1 degree), buffer 3/10 and scene corners (0,0) (0,3) (2,3)
(2,0), the computed extents give `x_max - x_min = 18/5`, which is not an
integer multiple of the resolution: the buffer is added after the lattice
rounding, so alignment is not independent of the buffer value. -/
theorem claim1_alignment_counterexample :
    latticeAligned
      ((create_projection_from_bbox_geo (0, 0) (0, 3) (2, 3) (2, 0)
        (geoResolution 3600) (3/10)).xmax -
       (create_projection_from_bbox_geo (0, 0) (0, 3) (2, 3) (2, 0)
        (geoResolution 3600) (3/10)).xmin)
      (geoResolution 3600) = false := by
  have hgrid : (create_projection_from_bbox_geo (0, 0) (0, 3) (2, 3) (2, 0)
      (geoResolution 3600) (3/10)).xmax -
      (create_projection_from_bbox_geo (0, 0) (0, 3) (2, 3) (2, 0)
      (geoResolution 3600) (3/10)).xmin = 18/5 := by
    simp only [create_projection_from_bbox_geo, round_limits, geoResolution]
    norm_num [pyRound, Int.fract]
  have hres : geoResolution 3600 = 1 := by norm_num [geoResolution]
  rw [hgrid, hres]
  by_contra hne
  have htrue : latticeAligned (18/5) 1 = true := by
    cases h : latticeAligned (18/5) 1
    · exact absurd h hne
    · rfl
  obtain ⟨k, hk⟩ := (latticeAligned_iff one_ne_zero).mp htrue
  have h18 : (18 : ℚ) / 5 = (k : ℚ) := by linarith
  have h5 : (5 * k : ℤ) = 18 := by
    exact_mod_cast (by linarith : (5 : ℚ) * (k : ℚ) = 18)
  omega

/-- Claim C1 (amended): for every projection center, resolution > 0,
buffer >= 0 and ordered bounding box, the extents computed by the shared
rounding block of `create_projection_from_bbox` satisfy: the pre-buffer
spans `x_max - x_min - 2*buffer` (and y analogously) are exact integer
multiples of the resolution (so the spans themselves are lattice-aligned
exactly when `2*buffer` is a multiple of the resolution, e.g. buffer = 0);
`size = round((max - min)/resolution) + 1` holds as stated; and the sizes
are at least 1. -/
theorem claim1_grid_alignment_amended
    (xm xM ym yM cx cy res buf : ℚ) (hres : 0 < res)
    (hbuf : 0 ≤ buf) (hx : xm ≤ xM) (hy : ym ≤ yM) :
    gridExtentsInvariant xm xM ym yM cx cy res buf := by
  have hres0 : res ≠ 0 := ne_of_gt hres
  have hdx : (round_limits xm xM ym yM cx cy res buf).xmax -
      (round_limits xm xM ym yM cx cy res buf).xmin - 2 * buf =
      ((pyRound ((xM - cx) / res) - pyRound ((xm - cx) / res) : ℤ) : ℚ) * res := by
    simp only [round_limits]
    push_cast
    ring
  have hdy : (round_limits xm xM ym yM cx cy res buf).ymax -
      (round_limits xm xM ym yM cx cy res buf).ymin - 2 * buf =
      ((pyRound ((yM - cy) / res) - pyRound ((ym - cy) / res) : ℤ) : ℚ) * res := by
    simp only [round_limits]
    push_cast
    ring
  have hkx : pyRound ((xm - cx) / res) ≤ pyRound ((xM - cx) / res) := by
    apply pyRound_mono
    gcongr
  have hky : pyRound ((ym - cy) / res) ≤ pyRound ((yM - cy) / res) := by
    apply pyRound_mono
    gcongr
  have hspanx : 0 ≤ ((round_limits xm xM ym yM cx cy res buf).xmax -
      (round_limits xm xM ym yM cx cy res buf).xmin) / res := by
    apply div_nonneg _ (le_of_lt hres)
    have h1 : (0 : ℚ) ≤
        ((pyRound ((xM - cx) / res) - pyRound ((xm - cx) / res) : ℤ) : ℚ) * res := by
      have h2 : (0 : ℚ) ≤
          ((pyRound ((xM - cx) / res) - pyRound ((xm - cx) / res) : ℤ) : ℚ) := by
        exact_mod_cast sub_nonneg.mpr hkx
      exact mul_nonneg h2 (le_of_lt hres)
    linarith [hdx]
  have hspany : 0 ≤ ((round_limits xm xM ym yM cx cy res buf).ymax -
      (round_limits xm xM ym yM cx cy res buf).ymin) / res := by
    apply div_nonneg _ (le_of_lt hres)
    have h1 : (0 : ℚ) ≤
        ((pyRound ((yM - cy) / res) - pyRound ((ym - cy) / res) : ℤ) : ℚ) * res := by
      have h2 : (0 : ℚ) ≤
          ((pyRound ((yM - cy) / res) - pyRound ((ym - cy) / res) : ℤ) : ℚ) := by
        exact_mod_cast sub_nonneg.mpr hky
      exact mul_nonneg h2 (le_of_lt hres)
    linarith [hdy]
  refine ⟨?_, ?_, ?_, ?_, ?_, ?_⟩
  · rw [hdx]
    exact latticeAligned_int_mul _ hres0
  · rw [hdy]
    exact latticeAligned_int_mul _ hres0
  · simp only [round_limits]
  · simp only [round_limits]
  · have hsz : (round_limits xm xM ym yM cx cy res buf).size_x =
        pyRound (((round_limits xm xM ym yM cx cy res buf).xmax -
          (round_limits xm xM ym yM cx cy res buf).xmin) / res) + 1 := by
      simp only [round_limits]
    rw [hsz]
    have := pyRound_nonneg hspanx
    omega
  · have hsz : (round_limits xm xM ym yM cx cy res buf).size_y =
        pyRound (((round_limits xm xM ym yM cx cy res buf).ymax -
          (round_limits xm xM ym yM cx cy res buf).ymin) / res) + 1 := by
      simp only [round_limits]
    rw [hsz]
    have := pyRound_nonneg hspany
    omega

/-- Claim C1, witness: the amended grid invariant at the concrete inputs
bounding box (0,1) x (0,1), center (0,0), resolution 1, buffer 0. -/
theorem claim1_grid_alignment_witness : gridExtentsInvariant 0 1 0 1 0 0 1 0 :=
  claim1_grid_alignment_amended 0 1 0 1 0 0 1 0 (by norm_num) (le_refl 0)
    (by norm_num) (by norm_num)

/-- Claim C2, counterexample: with the single-cell bin map `[[[0]]]` and an
external height-uncertainty aggregation whose output for the populated cell
is NaN, the `wse_uncert` channel of the assembled product holds that NaN
(not the fill marker): no NaN/Inf-to-fill replacement pass exists between
aggregation and product assembly in `raster.py`. -/
theorem claim2_nan_uncert_counterexample :
    product_wse_uncert [[[0]]] (fun _ => ExtFloat.nan) 0 0 = some ExtFloat.nan ∧
    ExtFloat.isnan ExtFloat.nan = true ∧
    product_wse_uncert [[[0]]] (fun _ => ExtFloat.nan) 0 0 ≠ none := by
  refine ⟨rfl, rfl, ?_⟩
  exact fun h => Option.noConfusion h

/-- Claim C2 (amended): the per-cell aggregation loops store the external
aggregation outputs unchanged: for every populated cell the product's
`wse_uncert` equals the height-uncertainty output as is (NaN and Inf
included), and `water_frac_uncert` equals the area-uncertainty output
divided by the cell nominal area, also unreplaced; the fill marker appears
only at cells with no contributing points. -/
theorem claim2_uncert_passthrough_amended
    (mapping : List (List (List ℕ))) (aggWseU aggAreaU : List ℕ → ExtFloat)
    (pxArea : ℕ → ℚ) (i j : ℕ) (cell : List ℕ)
    (hcell : cellAt mapping i j = some cell) (hne : cell.length ≠ 0) :
    product_wse_uncert mapping aggWseU i j = some (aggWseU cell) ∧
    product_water_frac_uncert mapping aggAreaU pxArea i j =
      some (ExtFloat.div (aggAreaU cell) (ExtFloat.fin (pxArea i))) := by
  constructor
  · simp [product_wse_uncert, wse_u_grid, cellGrid, hcell, hne]
  · simp [product_water_frac_uncert, water_frac_u_grid, hcell, hne]

/-- Claim C2, witness: the amended pass-through at the one-cell bin map
with a NaN height-uncertainty output and an infinite area-uncertainty
output. -/
theorem claim2_uncert_passthrough_witness :
    product_wse_uncert [[[0]]] (fun _ => ExtFloat.nan) 0 0 =
      some ExtFloat.nan ∧
    product_water_frac_uncert [[[0]]] (fun _ => ExtFloat.inf) (fun _ => 1) 0 0 =
      some (ExtFloat.div ExtFloat.inf (ExtFloat.fin 1)) :=
  claim2_uncert_passthrough_amended [[[0]]] (fun _ => ExtFloat.nan)
    (fun _ => ExtFloat.inf) (fun _ => 1) 0 0 [0] rfl (by decide)

/-- Claim C3, counterexample: on identical point arrays (one valid point of
classification 1), two runs that differ only in the configured class sets
produce different bin-mapping masks, so the mask used for bin mapping is
not independent of class recognition. -/
theorem claim3_mask_dependence_counterexample :
    bin_mapping_mask
      { interior_water_classes := [1], water_edge_classes := [],
        land_edge_classes := [], dark_water_classes := [] } [samplePoint] ≠
    bin_mapping_mask
      { interior_water_classes := [2], water_edge_classes := [],
        land_edge_classes := [], dark_water_classes := [] } [samplePoint] := by
  intro h
  simp only [bin_mapping_mask, bin_mapping_mask_point, samplePoint,
    get_pixc_mask_point, recognizedClasses, isinExt, ExtFloat.ble,
    ExtFloat.isnan, List.map_cons, List.map_nil, List.cons.injEq] at h
  norm_num at h

/-- Claim C3 (amended): the bin-mapping mask factors as the class-set
independent validity filter `get_pixc_mask` (a pure function of the raw
point fields) conjoined with class recognition; consequently two runs on
the same point arrays that differ only in their class sets agree on the
bin-mapping mask at every point where class recognition agrees, and any
disagreement is attributable solely to the class-recognition factor. -/
theorem claim3_mask_factorization_amended (cfgA cfgB : ClassConfig)
    (p : PixcPoint)
    (hrec : isinExt p.klass.data (recognizedClasses cfgA) =
            isinExt p.klass.data (recognizedClasses cfgB)) :
    bin_mapping_mask_point cfgA p =
      (get_pixc_mask_point p && isinExt p.klass.data (recognizedClasses cfgA)) ∧
    bin_mapping_mask_point cfgA p = bin_mapping_mask_point cfgB p := by
  constructor
  · rfl
  · simp [bin_mapping_mask_point, hrec]

/-- Claim C3, witness: the mask factorization at the sample point for two
configurations recognizing its class. -/
theorem claim3_mask_factorization_witness :
    bin_mapping_mask_point
      { interior_water_classes := [1], water_edge_classes := [],
        land_edge_classes := [], dark_water_classes := [] } samplePoint =
      (get_pixc_mask_point samplePoint &&
        isinExt samplePoint.klass.data (recognizedClasses
          { interior_water_classes := [1], water_edge_classes := [],
            land_edge_classes := [], dark_water_classes := [] })) ∧
    bin_mapping_mask_point
      { interior_water_classes := [1], water_edge_classes := [],
        land_edge_classes := [], dark_water_classes := [] } samplePoint =
    bin_mapping_mask_point
      { interior_water_classes := [], water_edge_classes := [1],
        land_edge_classes := [], dark_water_classes := [] } samplePoint :=
  claim3_mask_factorization_amended
    { interior_water_classes := [1], water_edge_classes := [],
      land_edge_classes := [], dark_water_classes := [] }
    { interior_water_classes := [], water_edge_classes := [1],
      land_edge_classes := [], dark_water_classes := [] }
    samplePoint rfl

theorem maskSelect_mul_eq (dark : List ℚ) :
    ∀ (area klass wf : List ExtFloat),
      klass.length = area.length → wf.length = area.length →
      List.zipWith ExtFloat.mul
        (maskSelect (klass.map (fun k => isinExt k dark)) area)
        (maskSelect (klass.map (fun k => isinExt k dark)) wf) =
      (area.zip (klass.zip wf)).filterMap
        (fun t => if isinExt t.2.1 dark
                  then some (ExtFloat.mul t.1 t.2.2) else none) := by
  intro area klass
  induction klass generalizing area with
  | nil =>
    intro wf h1 h2
    have ha : area = [] := List.length_eq_zero.mp h1.symm
    subst ha
    have hw : wf = [] := List.length_eq_zero.mp h2
    subst hw
    rfl
  | cons k ks ih =>
    intro wf h1 h2
    cases area with
    | nil => simp at h1
    | cons a as =>
      cases wf with
      | nil => simp at h2
      | cons w ws =>
        have h1s : ks.length = as.length := by simpa using h1
        have h2s : ws.length = as.length := by simpa using h2
        by_cases hk : isinExt k dark
        · simp only [List.map_cons, maskSelect, List.zip_cons_cons,
            List.filterMap_cons, hk, if_true, List.zipWith_cons_cons]
          exact congrArg (List.cons (ExtFloat.mul a w)) (ih as ws h1s h2s)
        · simp only [List.map_cons, maskSelect, List.zip_cons_cons,
            List.filterMap_cons, hk, if_false]
          exact ih as ws h1s h2s

/-- Claim C4: for every cell with at least one contributing point, the
dark-water fraction stored by `aggregate_dark_frac` equals
`sum(pixel_area * water_frac over dark-classified good points)` divided by
`sum(pixel_area * water_frac over all good points)` when that denominator
is nonzero, and equals exactly 0 (a finite zero, not NaN and not an error)
whenever the denominator is 0, however many dark-classified points the
cell contains. -/
theorem claim4_dark_frac_formula (dark : List ℚ)
    (mapping : List (List (List ℕ))) (good : ℕ → Bool)
    (pixel_area klass water_frac : ℕ → ExtFloat) (i j : ℕ) (cell : List ℕ)
    (hcell : cellAt mapping i j = some cell) (hne : cell.length ≠ 0) :
    dark_frac_grid dark mapping good pixel_area klass water_frac i j =
      some (if specTotalAreaSum ((cell.filter good).map pixel_area)
                ((cell.filter good).map water_frac) = ExtFloat.fin 0
            then ExtFloat.fin 0
            else ExtFloat.div
              (specDarkAreaSum dark ((cell.filter good).map pixel_area)
                ((cell.filter good).map klass)
                ((cell.filter good).map water_frac))
              (specTotalAreaSum ((cell.filter good).map pixel_area)
                ((cell.filter good).map water_frac))) := by
  have hmain : calc_dark_frac dark ((cell.filter good).map pixel_area)
      ((cell.filter good).map klass) ((cell.filter good).map water_frac) =
      (if specTotalAreaSum ((cell.filter good).map pixel_area)
           ((cell.filter good).map water_frac) = ExtFloat.fin 0
       then ExtFloat.fin 0
       else ExtFloat.div
         (specDarkAreaSum dark ((cell.filter good).map pixel_area)
           ((cell.filter good).map klass) ((cell.filter good).map water_frac))
         (specTotalAreaSum ((cell.filter good).map pixel_area)
           ((cell.filter good).map water_frac))) := by
    unfold calc_dark_frac specDarkAreaSum specTotalAreaSum
    dsimp only
    rw [maskSelect_mul_eq dark ((cell.filter good).map pixel_area)
      ((cell.filter good).map klass) ((cell.filter good).map water_frac)
      (by simp) (by simp)]
  simp only [dark_frac_grid, hcell, hne, ne_eq, not_false_iff, if_true]
  rw [hmain]

/-- Claim C4, witness: a one-cell bin map with two good points, one of them
dark-classified (class 5), all water fractions zero: the total water area
is 0 and the stored dark fraction is exactly the finite 0. -/
theorem claim4_dark_frac_witness :
    dark_frac_grid [5] [[[0, 1]]] (fun _ => true) (fun _ => ExtFloat.fin 1)
      (fun n => if n = 0 then ExtFloat.fin 5 else ExtFloat.fin 4)
      (fun _ => ExtFloat.fin 0) 0 0 = some (ExtFloat.fin 0) := by
  have h := claim4_dark_frac_formula [5] [[[0, 1]]] (fun _ => true)
    (fun _ => ExtFloat.fin 1)
    (fun n => if n = 0 then ExtFloat.fin 5 else ExtFloat.fin 4)
    (fun _ => ExtFloat.fin 0) 0 0 [0, 1] rfl (by decide)
  rw [h]
  norm_num [specTotalAreaSum, extSum, ExtFloat.mul, ExtFloat.add,
    List.filter, List.map]

/-- Claim C5: for every integer zone and band adjustment, the adjusted UTM
zone stays in the 1-indexed range 1..60 and is congruent to the unadjusted
zone plus the adjustment modulo the number of UTM zones (in particular zone
60 with adjustment +1 wraps to zone 1), while the adjusted band index is
clamped to the ends of the valid band range, `max 0 (min (idx + adjust)
19)`, never wrapping (in particular adjustment -99 from any valid band
index lands on index 0, the lowest valid band). -/
theorem claim5_zone_band_adjust (zone adj bidx badj : ℤ) :
    1 ≤ adjust_utm_zone zone adj ∧
    adjust_utm_zone zone adj ≤ UTM_NUM_ZONES ∧
    (adjust_utm_zone zone adj - 1) % UTM_NUM_ZONES =
      (zone + adj - 1) % UTM_NUM_ZONES ∧
    adjust_utm_zone 60 1 = 1 ∧
    adjust_band_num bidx badj =
      max 0 (min (bidx + badj) ((UTM_VALID_BANDS.length : ℤ) - 1)) ∧
    adjust_band_num 19 (-99) = 0 ∧
    adjust_band_num 3 (-99) = 0 := by
  have hz : (0 : ℤ) < UTM_NUM_ZONES := by norm_num [UTM_NUM_ZONES]
  have hlen : (UTM_VALID_BANDS.length : ℤ) = 20 := by rfl
  have hmod1 : 0 ≤ (zone + adj - 1) % UTM_NUM_ZONES :=
    Int.emod_nonneg _ (ne_of_gt hz)
  have hmod2 : (zone + adj - 1) % UTM_NUM_ZONES < UTM_NUM_ZONES :=
    Int.emod_lt_of_pos _ hz
  refine ⟨?_, ?_, ?_, ?_, ?_, ?_, ?_⟩
  · unfold adjust_utm_zone
    omega
  · unfold adjust_utm_zone
    omega
  · unfold adjust_utm_zone
    have : (zone + adj - 1) % UTM_NUM_ZONES + 1 - 1 =
        (zone + adj - 1) % UTM_NUM_ZONES := by ring
    rw [this]
    exact Int.emod_emod_of_dvd _ dvd_rfl
  · norm_num [adjust_utm_zone, UTM_NUM_ZONES]
  · unfold adjust_band_num
    rw [hlen]
    dsimp only
    split_ifs <;> omega
  · norm_num [adjust_band_num]
  · norm_num [adjust_band_num]

/-- Claim C6: in height aggregation, the per-point height standard
deviation equals `|phase_noise_std * dheight_dphase|` except that every
entry that is non-positive, infinite, or NaN is replaced by the deweighting
constant 1e5; the result handed to the height-uncertainty routine is always
finite and strictly positive (no NaN/Inf is propagated), and the
elementwise construction drops no point. -/
theorem claim6_height_std_clamp (pns dhdp : ExtFloat)
    (arr1 arr2 : List ExtFloat) :
    pixc_height_std pns dhdp =
      (if (ExtFloat.abs (ExtFloat.mul pns dhdp)).isnan ||
          (ExtFloat.abs (ExtFloat.mul pns dhdp)).isinf ||
          ExtFloat.ble (ExtFloat.abs (ExtFloat.mul pns dhdp)) (ExtFloat.fin 0)
       then ExtFloat.fin 100000
       else ExtFloat.abs (ExtFloat.mul pns dhdp)) ∧
    ExtFloat.isPosFinite (pixc_height_std pns dhdp) = true ∧
    (pixc_height_std_arr arr1 arr2).length = min arr1.length arr2.length := by
  have hclamp : ∀ x : ExtFloat, clampBadHeightStd x =
      (if x.isnan || x.isinf || ExtFloat.ble x (ExtFloat.fin 0)
       then ExtFloat.fin 100000 else x) := by
    intro x
    cases x with
    | fin q =>
        by_cases h : q ≤ 0 <;>
          simp [clampBadHeightStd, ExtFloat.ble, ExtFloat.isnan,
            ExtFloat.isinf, h]
    | inf => rfl
    | ninf => rfl
    | nan => rfl
  have hpos : ∀ x : ExtFloat, ExtFloat.isPosFinite (clampBadHeightStd x) = true := by
    intro x
    cases x with
    | fin q =>
        by_cases h : q ≤ 0
        · simp [clampBadHeightStd, ExtFloat.ble, ExtFloat.isnan,
            ExtFloat.isinf, ExtFloat.isPosFinite, h]
        · simp [clampBadHeightStd, ExtFloat.ble, ExtFloat.isnan,
            ExtFloat.isinf, ExtFloat.isPosFinite, h]
          linarith
    | inf => rfl
    | ninf => rfl
    | nan => rfl
  refine ⟨hclamp _, hpos _, ?_⟩
  simp [pixc_height_std_arr]

/-- Claim C7: after `apply_wse_corrections`, every data cell of the
corrected height grid equals the aggregated raw height minus the sum of the
aggregated geoid, solid-earth tide, load tide, and pole tide at that cell
(elementwise over the whole grid), and a cell that is no-data before the
subtraction is no-data after it whatever the correction grids hold. -/
theorem claim7_wse_corrections
    (wse geoid solid_earth_tide load_tide_sol1 pole_tide :
      ℕ → ℕ → Option ExtFloat) (i j : ℕ) (w gv sv lv pv : ExtFloat)
    (hw : wse i j = some w) (hg : geoid i j = some gv)
    (hs : solid_earth_tide i j = some sv) (hl : load_tide_sol1 i j = some lv)
    (hp : pole_tide i j = some pv) :
    apply_wse_corrections wse geoid solid_earth_tide load_tide_sol1
      pole_tide i j =
      some (ExtFloat.sub w
        (ExtFloat.add (ExtFloat.add (ExtFloat.add gv sv) lv) pv)) ∧
    apply_wse_corrections (fun _ _ => none) geoid solid_earth_tide
      load_tide_sol1 pole_tide i j = none := by
  constructor
  · simp [apply_wse_corrections, hw, hg, hs, hl, hp, ma_add, ma_sub]
  · simp only [apply_wse_corrections]
    cases ma_add (ma_add (ma_add (geoid i j) (solid_earth_tide i j))
      (load_tide_sol1 i j)) (pole_tide i j) <;> rfl

/-- Claim C7, witness: the correction subtraction at a concrete cell with
raw height 10 and corrections 1, 2, 3, 4, and the no-data preservation at
that cell. -/
theorem claim7_wse_corrections_witness :
    apply_wse_corrections (fun _ _ => some (ExtFloat.fin 10))
      (fun _ _ => some (ExtFloat.fin 1)) (fun _ _ => some (ExtFloat.fin 2))
      (fun _ _ => some (ExtFloat.fin 3)) (fun _ _ => some (ExtFloat.fin 4))
      0 0 =
      some (ExtFloat.sub (ExtFloat.fin 10)
        (ExtFloat.add (ExtFloat.add (ExtFloat.add (ExtFloat.fin 1)
          (ExtFloat.fin 2)) (ExtFloat.fin 3)) (ExtFloat.fin 4))) ∧
    apply_wse_corrections (fun _ _ => none)
      (fun _ _ => some (ExtFloat.fin 1)) (fun _ _ => some (ExtFloat.fin 2))
      (fun _ _ => some (ExtFloat.fin 3)) (fun _ _ => some (ExtFloat.fin 4))
      0 0 = none :=
  claim7_wse_corrections (fun _ _ => some (ExtFloat.fin 10))
    (fun _ _ => some (ExtFloat.fin 1)) (fun _ _ => some (ExtFloat.fin 2))
    (fun _ _ => some (ExtFloat.fin 3)) (fun _ _ => some (ExtFloat.fin 4))
    0 0 (ExtFloat.fin 10) (ExtFloat.fin 1) (ExtFloat.fin 2) (ExtFloat.fin 3)
    (ExtFloat.fin 4) rfl rfl rfl rfl rfl

/-- Claim C8: `get_pixc_mask` marks a point invalid if and only if its
latitude or longitude is masked or NaN, or its latitude is >= 84 or
<= -80, or its height or pixel-area entry is masked, or its classification
is NaN; every other point is marked valid. -/
theorem claim8_validity_filter (p : PixcPoint) :
    get_pixc_mask_point p =
      !(p.lat.masked || p.lon.masked || p.lat.data.isnan || p.lon.data.isnan ||
        ExtFloat.ble (ExtFloat.fin 84) p.lat.data ||
        ExtFloat.ble p.lat.data (ExtFloat.fin (-80)) ||
        p.height.masked || p.area.masked || p.klass.data.isnan) := by
  rcases p with ⟨⟨m1, d1⟩, ⟨m2, d2⟩, ⟨m3, d3⟩, ⟨m4, d4⟩, ⟨m5, d5⟩, wf⟩
  simp only [get_pixc_mask_point]
  generalize ExtFloat.isnan d1 = n1
  generalize ExtFloat.isnan d2 = n2
  generalize ExtFloat.isnan d5 = n5
  generalize ExtFloat.ble (ExtFloat.fin 84) d1 = b1
  generalize ExtFloat.ble d1 (ExtFloat.fin (-80)) = b2
  cases m1 <;> cases m2 <;> cases m3 <;> cases m4 <;> cases n1 <;>
    cases n2 <;> cases n5 <;> cases b1 <;> cases b2 <;> rfl

/-- Claim C9: on an empty point collection, `rasterize` returns (without
error, before any bin mapping or aggregation and for every choice of the
external mapping and aggregation routines) the empty raster product whose
grid sizes are exactly those the Grid Projector computes from the scene
corner coordinates, with every channel entirely fill-valued. -/
theorem claim9_empty_pixc (cfg : RasterConfig) (aggs : CellAggs)
    (mappingFn : GridExtents → List PixcPoint → List Bool → List (List (List ℕ)))
    (pxArea : ℕ → ℚ) (s : PixcScene) (hempty : s.points = []) :
    rasterizeGeo cfg aggs mappingFn pxArea s =
      emptyRasterProduct (create_projection_from_bbox_geo (sceneCorners s).1
        (sceneCorners s).2.1 (sceneCorners s).2.2.1 (sceneCorners s).2.2.2
        cfg.resolution cfg.buffer_size) ∧
    (rasterizeGeo cfg aggs mappingFn pxArea s).size_x =
      (create_projection_from_bbox_geo (sceneCorners s).1 (sceneCorners s).2.1
        (sceneCorners s).2.2.1 (sceneCorners s).2.2.2
        cfg.resolution cfg.buffer_size).size_x ∧
    (rasterizeGeo cfg aggs mappingFn pxArea s).size_y =
      (create_projection_from_bbox_geo (sceneCorners s).1 (sceneCorners s).2.1
        (sceneCorners s).2.2.1 (sceneCorners s).2.2.2
        cfg.resolution cfg.buffer_size).size_y ∧
    (rasterizeGeo cfg aggs mappingFn pxArea s).populated = false ∧
    allChannelsFill (rasterizeGeo cfg aggs mappingFn pxArea s) := by
  have he : rasterizeGeo cfg aggs mappingFn pxArea s =
      emptyRasterProduct (create_projection_from_bbox_geo (sceneCorners s).1
        (sceneCorners s).2.1 (sceneCorners s).2.2.1 (sceneCorners s).2.2.2
        cfg.resolution cfg.buffer_size) := by
    simp [rasterizeGeo, hempty]
  refine ⟨he, ?_, ?_, ?_, ?_⟩
  · rw [he]
    rfl
  · rw [he]
    rfl
  · rw [he]
    rfl
  · rw [he]
    exact ⟨rfl, rfl, rfl, rfl, rfl, rfl, rfl, rfl, rfl, rfl, rfl, rfl, rfl,
      rfl, rfl, rfl, rfl, rfl, rfl, rfl, rfl, rfl, rfl⟩

/-- Claim C9, witness: the empty-pixel-cloud path at the concrete scene,
configuration, aggregators, bin-mapping routine and pixel-area function. -/
theorem claim9_empty_pixc_witness :
    rasterizeGeo sampleConfig sampleAggs (fun _ _ _ => []) (fun _ => 1)
      sampleEmptyScene =
      emptyRasterProduct (create_projection_from_bbox_geo
        (sceneCorners sampleEmptyScene).1 (sceneCorners sampleEmptyScene).2.1
        (sceneCorners sampleEmptyScene).2.2.1
        (sceneCorners sampleEmptyScene).2.2.2
        sampleConfig.resolution sampleConfig.buffer_size) ∧
    (rasterizeGeo sampleConfig sampleAggs (fun _ _ _ => []) (fun _ => 1)
      sampleEmptyScene).size_x =
      (create_projection_from_bbox_geo
        (sceneCorners sampleEmptyScene).1 (sceneCorners sampleEmptyScene).2.1
        (sceneCorners sampleEmptyScene).2.2.1
        (sceneCorners sampleEmptyScene).2.2.2
        sampleConfig.resolution sampleConfig.buffer_size).size_x ∧
    (rasterizeGeo sampleConfig sampleAggs (fun _ _ _ => []) (fun _ => 1)
      sampleEmptyScene).size_y =
      (create_projection_from_bbox_geo
        (sceneCorners sampleEmptyScene).1 (sceneCorners sampleEmptyScene).2.1
        (sceneCorners sampleEmptyScene).2.2.1
        (sceneCorners sampleEmptyScene).2.2.2
        sampleConfig.resolution sampleConfig.buffer_size).size_y ∧
    (rasterizeGeo sampleConfig sampleAggs (fun _ _ _ => []) (fun _ => 1)
      sampleEmptyScene).populated = false ∧
    allChannelsFill (rasterizeGeo sampleConfig sampleAggs (fun _ _ _ => [])
      (fun _ => 1) sampleEmptyScene) :=
  claim9_empty_pixc sampleConfig sampleAggs (fun _ _ _ => []) (fun _ => 1)
    sampleEmptyScene rfl

/-- Claim C10: `do_improved_geolocation` never mutates the original input
pixel cloud (its state component is unchanged on both the empty-raster and
the refinement path), and on the refinement path the improved pixel cloud
is a fresh copy of the original whose latitude, longitude and height are
the solver outputs while every other field is carried over unchanged (the
record update keeps all remaining fields of the copy equal to the
original's). -/
theorem claim10_geoloc_no_mutation
    (geolocRaster : PixelCloud → List ExtFloat × List ExtFloat × List ExtFloat)
    (st : L2State) :
    (∀ b, (do_improved_geolocation geolocRaster b st).pixc = st.pixc) ∧
    do_improved_geolocation geolocRaster true st = st ∧
    (do_improved_geolocation geolocRaster false st).improved_geoloc_pixc =
      some { st.pixc with
        latitude := (geolocRaster st.pixc).1
        longitude := (geolocRaster st.pixc).2.1
        height := (geolocRaster st.pixc).2.2 } := by
  refine ⟨fun b => ?_, rfl, rfl⟩
  cases b <;> rfl
